import Mathlib

/-!
Verification development for the lamassuiot PKI control plane.

The Go sources are shallowly embedded: pure helpers become Lean functions,
the stateful device-manager and CA services become explicit state passing
over a repository state, Go machine integers become Nat (no overflow is
relevant to the verified properties), and fallible Go code returns Except.
Cryptography is abstracted by key identities: a signature made with key k
verifies against public key p exactly when k = p; certificate chain
verification follows the structure of Go x509 Verify restricted to the
facts the code inspects (issuer and subject names, signature key, extended
key usage), abstracting validity windows and name constraints.
-/

set_option linter.unusedVariables false

namespace Lamassu

/-! ## Key metadata (src/pkg/services/crl.go, KeyStrengthMetadataFromCertificate) -/

inductive KeyType where
  | RSA
  | ECDSA
  | unknown
  deriving DecidableEq, Repr

inductive KeyStrength where
  | low
  | medium
  | high
  deriving DecidableEq, Repr

structure KeyStrengthMetadata where
  type : KeyType
  bits : Nat
  strength : KeyStrength
  deriving DecidableEq, Repr

/-- Public-key algorithm of an x509 certificate as inspected by the Go
switch on cert.PublicKeyAlgorithm.String(): the code distinguishes the
strings "RSA" and "ECDSA" and leaves everything else to the default. -/
inductive PublicKeyAlgorithm where
  | RSA
  | ECDSA
  | other
  deriving DecidableEq, Repr

/-- The part of an x509 certificate public key that
KeyStrengthMetadataFromCertificate reads: the algorithm, and the bit length
(RSA modulus bit length, respectively ECDSA curve bit size). -/
structure CertPublicKey where
  alg : PublicKeyAlgorithm
  bits : Nat
  deriving DecidableEq, Repr

/-- Embedding of KeyStrengthMetadataFromCertificate
(src/pkg/services/crl.go lines 215-252). -/
def KeyStrengthMetadataFromCertificate (pk : CertPublicKey) : KeyStrengthMetadata :=
  let keyType : KeyType :=
    match pk.alg with
    | .RSA => .RSA
    | .ECDSA => .ECDSA
    | .other => .unknown
  let keyBits : Nat :=
    match pk.alg with
    | .RSA => pk.bits
    | .ECDSA => pk.bits
    | .other => 0
  let keyStrength : KeyStrength :=
    match keyType with
    | .RSA =>
      if keyBits < 2048 then .low
      else if 2048 ≤ keyBits ∧ keyBits < 3072 then .medium
      else .high
    | .ECDSA =>
      if keyBits ≤ 128 then .low
      else if 128 < keyBits ∧ keyBits < 256 then .medium
      else .high
    | .unknown => .low
  { type := keyType, bits := keyBits, strength := keyStrength }

/-! ## Serial-number formatting (src/pkg/services/crl.go, SerialNumberToString) -/

/-- Embedding of toHexInt: Go fmt.Sprintf with the lowercase hex verb on a
non-negative big.Int produces the minimal lowercase hex digit string. -/
def toHexInt (n : Nat) : List Char :=
  Nat.toDigits 16 n

/-- Loop body of insertNth: writes each character, appending the separator
after every position i with i mod n = n - 1 except the final position of
the string (len is the total length, i the current index). -/
def insertNthAux (n : Nat) (sep : Char) (len : Nat) : Nat → List Char → List Char
  | _, [] => []
  | i, c :: rest =>
    if i % n == n - 1 && i != len - 1 then
      c :: sep :: insertNthAux n sep len (i + 1) rest
    else
      c :: insertNthAux n sep len (i + 1) rest

/-- Embedding of insertNth (src/pkg/services/crl.go lines 127-141): a
string of odd length is first left-padded with a single zero character. -/
def insertNth (s : List Char) (n : Nat) (sep : Char) : List Char :=
  let s2 := if s.length % 2 ≠ 0 then '0' :: s else s
  insertNthAux n sep s2.length 0 s2

/-- Embedding of SerialNumberToString (src/pkg/services/crl.go lines
147-149): the hex digits grouped in pairs, separated by the hyphen
character. -/
def SerialNumberToString (n : Nat) : String :=
  ⟨insertNth (toHexInt n) 2 '-'⟩

/-- Reference helper for the spec reading: left-pad a digit string with a
single zero character when its length is odd. -/
def padEven (l : List Char) : List Char :=
  if l.length % 2 ≠ 0 then '0' :: l else l

/-- Reference helper for the spec reading: split a digit string into
groups of two characters. -/
def chunkPairs : List Char → List (List Char)
  | [] => []
  | [c] => [[c]]
  | a :: b :: rest => [a, b] :: chunkPairs rest

/-- Reference helper for the spec reading: join groups with a single
separator character between consecutive groups. -/
def joinWithSep (sep : Char) : List (List Char) → List Char
  | [] => []
  | [g] => g
  | g :: gs => g ++ sep :: joinWithSep sep gs

/-- Spec-side reading of the claim: hex digits of the serial, padded to
even length, grouped in pairs and separated by colons. -/
def colonGroupedHex (n : Nat) : String :=
  ⟨joinWithSep ':' (chunkPairs (padEven (toHexInt n)))⟩

/-- Spec-side reading with the separator the code actually uses: hex
digits padded to even length, grouped in pairs, separated by hyphens. -/
def hyphenGroupedHex (n : Nat) : String :=
  ⟨joinWithSep '-' (chunkPairs (padEven (toHexInt n)))⟩

/-! ## AWS crypto engines (src/unnamed/part_001 and part_002): key deletion -/

/-- State of the AWS KMS engine visible to the embedding: the key ids
currently stored. The Go DeleteKey method performs no KMS call at all. -/
structure AWSKMSCryptoEngine where
  keys : List String
  deriving DecidableEq, Repr

/-- Embedding of AWSKMSCryptoEngine.DeleteKey (src/unnamed/part_001 lines
157-159): unconditionally returns an error and touches nothing. -/
def AWSKMSCryptoEngine.DeleteKey (p : AWSKMSCryptoEngine) (keyID : String) :
    AWSKMSCryptoEngine × Except String Unit :=
  (p, .error ("cannot delete key [" ++ keyID ++ "]. Go to your aws account and do it manually"))

/-- State of the AWS Secrets Manager key storager visible to the
embedding: the stored secrets. The Go Delete method performs no call. -/
structure AWSSecretsManagerKeyStorager where
  secrets : List (String × String)
  deriving DecidableEq, Repr

/-- Embedding of AWSSecretsManagerKeyStorager.Delete (src/unnamed/part_002
lines 467-469): unconditionally returns an error and touches nothing. -/
def AWSSecretsManagerKeyStorager.Delete (engine : AWSSecretsManagerKeyStorager) (keyID : String) :
    AWSSecretsManagerKeyStorager × Except String Unit :=
  (engine, .error ("cannot delete key [" ++ keyID ++ "]. Go to your aws account and do it manually"))

/-! ## DMS state machine (spec section 4.4; TestUpdateDMSStatus in
src/pkg/helpers/metadata_test.go lines 399-786) -/

inductive DMSStatus where
  | pendingApproval
  | approved
  | rejected
  | revoked
  | expired
  deriving DecidableEq, Repr

/-- Device Management Service record, with the fields the embedded
operations read: identity, approval status, the cloud-managed flag, the
authorized-CA list, and the identity-profile settings used by Enroll. -/
structure DMS where
  id : String
  status : DMSStatus
  cloudDMS : Bool
  authorizedCAs : List String
  deviceProvisionTags : List String
  deviceProvisionMetadata : List (String × String)
  allowExpiredRenewal : Bool
  preventiveReenrollmentDelta : Nat
  criticalReenrollmentDelta : Nat
  deriving DecidableEq, Repr

inductive DMSUpdateError where
  | invalidTransition
  | notFound
  deriving DecidableEq, Repr

/-- Status strings accepted by the status-update endpoint, as exercised by
TestUpdateDMSStatus. -/
def parseDMSStatus (s : String) : Option DMSStatus :=
  if s = "PENDING_APPROVAL" then some .pendingApproval
  else if s = "APPROVED" then some .approved
  else if s = "REJECTED" then some .rejected
  else if s = "REVOKED" then some .revoked
  else if s = "EXPIRED" then some .expired
  else none

/-- Modelled from the spec: the DMS Manager service implementation of the
status update is not under src (src holds only its HTTP tests in
TestUpdateDMSStatus, the route registration and a request DTO). Spec
section 4.4: legal transitions are PENDING_APPROVAL to APPROVED or
REJECTED and APPROVED to REVOKED or EXPIRED; any other transition fails
with INVALID_TRANSITION. The model matches every expectation of
TestUpdateDMSStatus. -/
def updateDMSStatus (dms : DMS) (target : DMSStatus) : Except DMSUpdateError DMS :=
  match dms.status, target with
  | .pendingApproval, .approved => .ok { dms with status := .approved }
  | .pendingApproval, .rejected => .ok { dms with status := .rejected }
  | .approved, .revoked => .ok { dms with status := .revoked }
  | .approved, .expired => .ok { dms with status := .expired }
  | _, _ => .error .invalidTransition

/-- Modelled from the spec: the endpoint receives the target status as a
string, resolves the DMS by id in the store and applies the transition;
requests naming no DMS fail with NOT_FOUND, unknown status strings and
illegal transitions fail with INVALID_TRANSITION, and on every failure
the store is returned unchanged. -/
def updateDMSStatusInStore (store : List DMS) (id : String) (target : String) :
    List DMS × Except DMSUpdateError DMS :=
  match store.find? (fun d => d.id == id) with
  | none => (store, .error .notFound)
  | some dms =>
    match parseDMSStatus target with
    | none => (store, .error .invalidTransition)
    | some t =>
      match updateDMSStatus dms t with
      | .error e => (store, .error e)
      | .ok d2 => (store.map (fun d => if d.id == id then d2 else d), .ok d2)

/-- The transition relation the spec declares legal. -/
def allowedDMSTransition (s t : DMSStatus) : Prop :=
  (s = .pendingApproval ∧ (t = .approved ∨ t = .rejected)) ∨
  (s = .approved ∧ (t = .revoked ∨ t = .expired))

instance (s t : DMSStatus) : Decidable (allowedDMSTransition s t) := by
  unfold allowedDMSTransition
  infer_instance

/-- Example DMS record used by concrete evaluations. -/
def exampleDMS : DMS :=
  { id := "My DMS Server", status := .approved, cloudDMS := true,
    authorizedCAs := [], deviceProvisionTags := [],
    deviceProvisionMetadata := [], allowExpiredRenewal := false,
    preventiveReenrollmentDelta := 0, criticalReenrollmentDelta := 0 }

/-- C8: deriving key-strength metadata from a certificate with an RSA
public key yields LOW below 2048 bits, MEDIUM from 2048 up to but
excluding 3072 bits, and HIGH at 3072 bits or more; in particular an
RSA-2048 key yields strength MEDIUM. -/
theorem rsa_keyStrength_thresholds :
    (∀ bits : Nat,
        KeyStrengthMetadataFromCertificate ⟨.RSA, bits⟩ =
          { type := .RSA, bits := bits,
            strength :=
              if bits < 2048 then .low
              else if bits < 3072 then .medium
              else .high }) ∧
    (KeyStrengthMetadataFromCertificate ⟨.RSA, 2048⟩).strength = .medium := by
  constructor
  · intro bits
    unfold KeyStrengthMetadataFromCertificate
    simp only
    split_ifs with h1 h2 h3 h4 <;> first | rfl | omega
  · rfl

/-- C9: both AWS-backed key stores reject deletion for every key id,
returning the manual-deletion error and leaving their state untouched. -/
theorem aws_delete_always_rejected :
    (∀ (p : AWSKMSCryptoEngine) (keyID : String),
        p.DeleteKey keyID =
          (p, .error ("cannot delete key [" ++ keyID ++
            "]. Go to your aws account and do it manually"))) ∧
    (∀ (engine : AWSSecretsManagerKeyStorager) (keyID : String),
        engine.Delete keyID =
          (engine, .error ("cannot delete key [" ++ keyID ++
            "]. Go to your aws account and do it manually"))) :=
  ⟨fun _ _ => rfl, fun _ _ => rfl⟩

/-- C5: the DMS status update accepts exactly the transitions
PENDING_APPROVAL to APPROVED or REJECTED and APPROVED to REVOKED or
EXPIRED; every other requested transition, including unknown status
strings, fails with INVALID_TRANSITION, and every failure leaves the
store unchanged. -/
theorem dms_status_transition_exact :
    (∀ (dms : DMS) (t : DMSStatus),
        updateDMSStatus dms t = .ok { dms with status := t } ↔
          allowedDMSTransition dms.status t) ∧
    (∀ (dms : DMS) (t : DMSStatus),
        ¬ allowedDMSTransition dms.status t →
          updateDMSStatus dms t = .error .invalidTransition) ∧
    (∀ (store : List DMS) (id target : String) (e : DMSUpdateError),
        (updateDMSStatusInStore store id target).2 = .error e →
          (updateDMSStatusInStore store id target).1 = store) ∧
    (∀ (store : List DMS) (id target : String) (dms : DMS),
        store.find? (fun d => d.id == id) = some dms →
        parseDMSStatus target = none →
          (updateDMSStatusInStore store id target).2 = .error .invalidTransition) := by
  refine ⟨?_, ?_, ?_, ?_⟩
  · intro dms t
    obtain ⟨i, s, c, a, tg, md, ar, p, cr⟩ := dms
    cases s <;> cases t <;>
      simp [updateDMSStatus, allowedDMSTransition]
  · intro dms t hna
    obtain ⟨i, s, c, a, tg, md, ar, p, cr⟩ := dms
    cases s <;> cases t <;>
      first
        | rfl
        | exact absurd (by simp [allowedDMSTransition]) hna
  · intro store id target e
    unfold updateDMSStatusInStore
    rcases hfind : store.find? (fun d => d.id == id) with _ | dms
    · simp [hfind]
    · rcases hparse : parseDMSStatus target with _ | t
      · simp [hfind, hparse]
      · rcases hupd : updateDMSStatus dms t with e2 | d2
        · simp [hfind, hparse, hupd]
        · simp [hfind, hparse, hupd]
  · intro store id target dms hfind hparse
    unfold updateDMSStatusInStore
    rw [hfind, hparse]

/-- Witness for C5 at concrete inputs: APPROVED to PENDING_APPROVAL is
rejected, and an unknown status string is rejected with the store
unchanged. -/
theorem dms_status_transition_exact_witness :
    updateDMSStatus exampleDMS .pendingApproval = .error .invalidTransition ∧
    (updateDMSStatusInStore [exampleDMS] "My DMS Server" "NEW_STATUS").2 =
      .error .invalidTransition :=
  ⟨dms_status_transition_exact.2.1 exampleDMS .pendingApproval (by decide),
   dms_status_transition_exact.2.2.2 [exampleDMS] "My DMS Server" "NEW_STATUS"
     exampleDMS (by decide) (by decide)⟩

/-- A nonempty digit string yields a nonempty group list. -/
theorem chunkPairs_ne_nil (l : List Char) (h : l ≠ []) : chunkPairs l ≠ [] := by
  match l with
  | [c] => simp [chunkPairs]
  | a :: b :: rest => simp [chunkPairs]

/-- The insertNth loop on an even-length tail starting at an even index
produces the two-character groups of the tail joined by the separator. -/
theorem insertNthAux_eq_join (sep : Char) (l : List Char) :
    ∀ (k len : Nat), k % 2 = 0 → l.length % 2 = 0 → len = k + l.length →
      insertNthAux 2 sep len k l = joinWithSep sep (chunkPairs l) := by
  induction l using chunkPairs.induct with
  | case1 =>
    intro k len hk hl hlen
    simp [insertNthAux, chunkPairs, joinWithSep]
  | case2 c =>
    intro k len hk hl hlen
    simp at hl
  | case3 a b rest ih =>
    intro k len hk hl hlen
    have hrl : rest.length % 2 = 0 := by
      simp at hl
      omega
    have c1 : (k % 2 == 2 - 1 && k != len - 1) = false := by
      simp [hk]
    rcases hrest : rest with _ | ⟨r, rs⟩
    · subst hrest
      have c2 : ((k + 1) % 2 == 2 - 1 && (k + 1) != len - 1) = false := by
        simp at hlen
        simp [hlen]
      simp [insertNthAux, c1, c2, chunkPairs, joinWithSep]
    · subst hrest
      have c2 : ((k + 1) % 2 == 2 - 1 && (k + 1) != len - 1) = true := by
        simp at hlen
        simp [hlen]
        omega
      have htail := ih (k + 2) len (by omega) hrl (by simp at hlen ⊢; omega)
      have hjoin : joinWithSep sep (chunkPairs (a :: b :: r :: rs)) =
          a :: b :: sep :: joinWithSep sep (chunkPairs (r :: rs)) := by
        rcases hch : chunkPairs (r :: rs) with _ | ⟨g, gs⟩
        · exact absurd hch (chunkPairs_ne_nil _ (by simp))
        · simp [chunkPairs, hch, joinWithSep]
      have e1 : insertNthAux 2 sep len k (a :: b :: r :: rs)
          = a :: insertNthAux 2 sep len (k + 1) (b :: r :: rs) := by
        conv_lhs => rw [insertNthAux]
        rw [c1]
        simp
      have e2 : insertNthAux 2 sep len (k + 1) (b :: r :: rs)
          = b :: sep :: insertNthAux 2 sep len (k + 2) (r :: rs) := by
        conv_lhs => rw [insertNthAux]
        rw [c2]
        simp
      rw [e1, e2, htail, hjoin]

/-- Padding to even length indeed yields an even length. -/
theorem padEven_length_even (l : List Char) : (padEven l).length % 2 = 0 := by
  unfold padEven
  split
  · simp only [List.length_cons]
    omega
  · omega

/-- C7 counterexample: at serial number 4095 the repository key is the
hyphen-grouped hex string, not the colon-grouped one the claim states. -/
theorem serialNumberToString_colon_counterexample :
    SerialNumberToString 4095 = "0f-ff" ∧
    colonGroupedHex 4095 = "0f:ff" ∧
    SerialNumberToString 4095 ≠ colonGroupedHex 4095 := by
  refine ⟨by decide, by decide, by decide⟩

/-- C7 amended: for every non-negative serial number the produced key is
the hexadecimal representation, left-padded with one leading zero to even
length, grouped into two-hex-digit groups separated by hyphens. -/
theorem serialNumberToString_hyphen_grouped (n : Nat) :
    SerialNumberToString n = hyphenGroupedHex n := by
  have h := insertNthAux_eq_join '-' (padEven (toHexInt n)) 0
    (padEven (toHexInt n)).length (by omega) (padEven_length_even _) (by simp)
  show (⟨insertNthAux 2 '-' (padEven (toHexInt n)).length 0
    (padEven (toHexInt n))⟩ : String) = _
  rw [h]
  rfl

/-! ## Shared PKI data model -/

/-- Abstraction of an x509 certificate: the fields the embedded code
inspects. Key identities stand for key pairs: a signature made with key k
verifies against public key p exactly when k = p. clientAuthAllowed means
the extended key usage set of the certificate permits TLS client
authentication (an empty extended key usage set in Go also permits it). -/
structure X509Cert where
  subjectCN : String
  issuerCN : String
  pubKey : Nat
  sigKey : Nat
  clientAuthAllowed : Bool
  deriving DecidableEq, Repr

inductive CertificateStatus where
  | active
  | nearExpiration
  | expired
  | revoked
  deriving DecidableEq, Repr

/-- Repository record for an issued certificate. -/
structure Certificate where
  serialNumber : Nat
  caID : String
  status : CertificateStatus
  revocationReason : Nat
  cert : X509Cert
  deriving DecidableEq, Repr

/-- Repository record for a CA: its id, the crypto-engine key backing it,
and its own certificate record. -/
structure CACertificate where
  id : String
  keyID : Nat
  certificate : Certificate
  deriving DecidableEq, Repr

/-! ## AMQP event-publisher middleware (src/pkg/middlewares/amqppub/ca.go) -/

inductive AmqpPayload where
  | caCert (c : Option CACertificate)
  | cert (c : Option Certificate)
  | deleteCAInput (caID : String)
  deriving DecidableEq, Repr

structure AmqpPublishMessage where
  eventType : String
  eventSource : String
  payload : AmqpPayload
  deriving DecidableEq, Repr

def caSource : String := "lamassuiot.ca"

/-- Go errors are either nil or some error value; the middleware only
tests nil-ness. -/
abbrev GoError := Option String

/-- Embedding of publishEvent: builds the message sent on the publisher
channel. -/
def publishEvent (eventType source : String) (payload : AmqpPayload) : AmqpPublishMessage :=
  ⟨eventType, source, payload⟩

/-- Embedding of amqpEventPublisher.CreateCA: the wrapped call is
represented by its result (output, err); the deferred block publishes
exactly when err is nil. Returns the forwarded result and the list of
published messages. -/
def amqpCreateCA (output : Option CACertificate) (err : GoError) :
    (Option CACertificate × GoError) × List AmqpPublishMessage :=
  ((output, err),
    if err = none then [publishEvent "ca.create" caSource (.caCert output)] else [])

/-- Embedding of amqpEventPublisher.RotateCA. -/
def amqpRotateCA (output : Option CACertificate) (err : GoError) :
    (Option CACertificate × GoError) × List AmqpPublishMessage :=
  ((output, err),
    if err = none then [publishEvent "ca.rotate" caSource (.caCert output)] else [])

/-- Embedding of amqpEventPublisher.UpdateCAStatus. -/
def amqpUpdateCAStatus (output : Option CACertificate) (err : GoError) :
    (Option CACertificate × GoError) × List AmqpPublishMessage :=
  ((output, err),
    if err = none then [publishEvent "ca.update" caSource (.caCert output)] else [])

/-- Embedding of amqpEventPublisher.DeleteCA: the payload is the
operation input. -/
def amqpDeleteCA (input : String) (err : GoError) :
    GoError × List AmqpPublishMessage :=
  (err,
    if err = none then [publishEvent "ca.delete" caSource (.deleteCAInput input)] else [])

/-- Embedding of amqpEventPublisher.SignCertificate. -/
def amqpSignCertificate (output : Option Certificate) (err : GoError) :
    (Option Certificate × GoError) × List AmqpPublishMessage :=
  ((output, err),
    if err = none then [publishEvent "ca.sign" caSource (.cert output)] else [])

/-- Embedding of amqpEventPublisher.UpdateCertificateStatus. -/
def amqpUpdateCertificateStatus (output : Option Certificate) (err : GoError) :
    (Option Certificate × GoError) × List AmqpPublishMessage :=
  ((output, err),
    if err = none then [publishEvent "certificate.update" caSource (.cert output)] else [])

/-- Embedding of the read-only middleware methods (GetCryptoEngineProviders,
GetCAByID, GetCAs, GetCertificateBySerialNumber, GetCertificates,
GetCertificatesByCA, GetCertificatesByExpirationDate): they forward the
wrapped result and publish nothing. The forwarded result is abstract. -/
def amqpReadOnly {α : Type} (res : α) : α × List AmqpPublishMessage :=
  (res, [])

/-- C6: each state-changing CA-service operation routed through the AMQP
publisher middleware publishes exactly one event — with its fixed type,
source lamassuiot.ca, and the operation output (input, for delete) as
payload — precisely when the wrapped operation returns a nil error; a
failed operation and a read-only operation publish nothing. -/
theorem amqp_publishes_iff_success :
    (∀ (out : Option CACertificate) (err : GoError),
        ((amqpCreateCA out err).2 = [⟨"ca.create", caSource, .caCert out⟩] ↔ err = none) ∧
        (err ≠ none → (amqpCreateCA out err).2 = []) ∧
        (amqpCreateCA out err).1 = (out, err)) ∧
    (∀ (out : Option CACertificate) (err : GoError),
        ((amqpRotateCA out err).2 = [⟨"ca.rotate", caSource, .caCert out⟩] ↔ err = none) ∧
        (err ≠ none → (amqpRotateCA out err).2 = []) ∧
        (amqpRotateCA out err).1 = (out, err)) ∧
    (∀ (out : Option CACertificate) (err : GoError),
        ((amqpUpdateCAStatus out err).2 = [⟨"ca.update", caSource, .caCert out⟩] ↔ err = none) ∧
        (err ≠ none → (amqpUpdateCAStatus out err).2 = []) ∧
        (amqpUpdateCAStatus out err).1 = (out, err)) ∧
    (∀ (input : String) (err : GoError),
        ((amqpDeleteCA input err).2 = [⟨"ca.delete", caSource, .deleteCAInput input⟩] ↔ err = none) ∧
        (err ≠ none → (amqpDeleteCA input err).2 = []) ∧
        (amqpDeleteCA input err).1 = err) ∧
    (∀ (out : Option Certificate) (err : GoError),
        ((amqpSignCertificate out err).2 = [⟨"ca.sign", caSource, .cert out⟩] ↔ err = none) ∧
        (err ≠ none → (amqpSignCertificate out err).2 = []) ∧
        (amqpSignCertificate out err).1 = (out, err)) ∧
    (∀ (out : Option Certificate) (err : GoError),
        ((amqpUpdateCertificateStatus out err).2 =
            [⟨"certificate.update", caSource, .cert out⟩] ↔ err = none) ∧
        (err ≠ none → (amqpUpdateCertificateStatus out err).2 = []) ∧
        (amqpUpdateCertificateStatus out err).1 = (out, err)) ∧
    (∀ (res : Option CACertificate × GoError), (amqpReadOnly res).2 = []) := by
  refine ⟨?_, ?_, ?_, ?_, ?_, ?_, fun res => rfl⟩ <;>
    intro out err <;>
    rcases err with _ | e <;>
      simp [amqpCreateCA, amqpRotateCA, amqpUpdateCAStatus, amqpDeleteCA,
        amqpSignCertificate, amqpUpdateCertificateStatus, publishEvent]

/-- Witness for C6 at concrete results: a successful CreateCA publishes
its single ca.create event, and a failed CreateCA publishes nothing. -/
theorem amqp_publishes_iff_success_witness :
    (amqpCreateCA none none).2 = [⟨"ca.create", caSource, .caCert none⟩] ∧
    (amqpCreateCA none (some "boom")).2 = [] :=
  ⟨(amqp_publishes_iff_success.1 none none).1.mpr rfl,
   (amqp_publishes_iff_success.1 none (some "boom")).2.1 (by simp)⟩

/-! ## x509 chain verification and the device-manager Enroll flow
(src/unnamed/part_002, package services) -/

/-- Roots of a Go x509 VerifyOptions pool whose subject matches the
candidate issuer and whose public key verifies the candidate signature. -/
def findVerifiedParents (pool : List X509Cert) (c : X509Cert) : List X509Cert :=
  pool.filter (fun parent => parent.subjectCN == c.issuerCN && parent.pubKey == c.sigKey)

/-- Shallow model of Go x509 Certificate.Verify against a root pool with
KeyUsages = [ExtKeyUsageClientAuth]: the certificate must permit client
authentication and must chain directly to a pool member whose subject is
its issuer and whose key verifies its signature (validity windows and
name constraints are abstracted away). -/
def x509Verify (roots : List X509Cert) (c : X509Cert) : Bool :=
  c.clientAuthAllowed && !(findVerifiedParents roots c).isEmpty

/-- Embedding of verifyIssuedByCA (src/unnamed/part_002 lines 362-377):
the pool it builds contains only certToVerify itself; the rootCA argument
is never added to the pool nor otherwise read. -/
def verifyIssuedByCA (certToVerify : X509Cert) (rootCA : X509Cert) : Except String Unit :=
  let clientCAs : List X509Cert := [certToVerify]
  if x509Verify clientCAs certToVerify then .ok ()
  else .error "could not verify client certificate"

/-- Spec-side reading of the chain requirement: the client certificate
chains to the given CA certificate (issuer and signature match) and is
usable for client authentication. -/
def chainsToCA (c : X509Cert) (ca : X509Cert) : Bool :=
  ca.subjectCN == c.issuerCN && ca.pubKey == c.sigKey && c.clientAuthAllowed

inductive ESTAuthMode where
  | mutualTLS
  | noAuth
  deriving DecidableEq, Repr

/-- Typed errors of the embedded services: SentinelAPIError carries the
HTTP status of the Go errs.SentinelAPIError; nilPointerDereference stands
for a Go runtime nil-pointer panic; notFound stands for a storage
lookup miss surfaced by a collaborator. -/
inductive APIError where
  | sentinel (status : Nat) (msg : String)
  | notFound (what : String)
  | nilPointerDereference
  deriving DecidableEq, Repr

inductive DeviceStatus where
  | noIdentity
  | active
  | revoked
  | decommissioned
  deriving DecidableEq, Repr

inductive SlotStatus where
  | active
  deriving DecidableEq, Repr

inductive SlotProfileType where
  | x509
  | other
  deriving DecidableEq, Repr

/-- Identity slot of a device (models.Slot instantiated at
models.Certificate), with the fields Enroll writes. -/
structure IdentitySlot where
  dmsManaged : Bool
  status : SlotStatus
  activeVersion : Nat
  allowExpiredRenewal : Bool
  preventiveReenrollmentDelta : Nat
  criticalDelta : Nat
  secretType : SlotProfileType
  secrets : List (Nat × Certificate)
  deriving DecidableEq, Repr

structure Device where
  id : String
  aliasName : String
  tags : List String
  status : DeviceStatus
  metadata : List (String × String)
  identitySlot : Option IdentitySlot
  dmsOwnerID : String
  deriving DecidableEq, Repr

/-- CSR fields the embedded flow reads: the subject common name and the
requester public key. -/
structure CertificateRequest where
  subjectCN : String
  pubKey : Nat
  deriving DecidableEq, Repr

/-- Combined repository state threaded through the device-manager and CA
services: the device store, the DMS store, the CA store, the certificates
signed so far, and the next fresh serial number. -/
structure PKIState where
  devices : List Device
  dmss : List DMS
  cas : List CACertificate
  signedCerts : List Certificate
  nextSerial : Nat
  deriving DecidableEq, Repr

/-- Identifier of the local RA CA: the models.CALocalRA constant (the
models package is not under src; the literal value is immaterial to every
claim). -/
def CALocalRA : String := "lms-ca-local-ra"

/-- Embedding of devicesStorage.Exists. -/
def devicesExists (st : PKIState) (id : String) : Bool :=
  st.devices.any (fun d => d.id == id)

/-- Embedding of devicesStorage.Select. -/
def devicesSelect (st : PKIState) (id : String) : Option Device :=
  st.devices.find? (fun d => d.id == id)

/-- Embedding of devicesStorage.Insert. -/
def devicesInsert (st : PKIState) (d : Device) : PKIState :=
  { st with devices := st.devices ++ [d] }

/-- Embedding of devicesStorage.Update: replaces the stored device with
the same id. -/
def devicesUpdate (st : PKIState) (d : Device) : PKIState :=
  { st with devices := st.devices.map (fun e => if e.id == d.id then d else e) }

structure CreateDeviceInput where
  id : String
  aliasName : String
  tags : List String
  metadata : List (String × String)
  dmsID : String
  deriving DecidableEq, Repr

/-- Embedding of deviceManagerServiceImpl.CreateDevice (src/unnamed/part_002
lines 67-92): the new device starts with no identity slot and status
NO_IDENTITY. -/
def CreateDevice (st : PKIState) (input : CreateDeviceInput) :
    PKIState × Except APIError Device :=
  let device : Device :=
    { id := input.id, aliasName := input.aliasName, tags := input.tags,
      status := .noIdentity, metadata := input.metadata,
      identitySlot := none, dmsOwnerID := input.dmsID }
  (devicesInsert st device, .ok device)

structure SignCertificateInput where
  caID : String
  certRequest : CertificateRequest
  signVerbatim : Bool
  deriving DecidableEq, Repr

/-- Modelled from the spec: the CA service SignCertificate implementation
is not under src (Enroll is its caller). Per the spec, sign-verbatim
reproduces the CSR subject exactly, the leaf is signed with the engine
key of the CA named by the input, given a fresh serial, and recorded in
the repository; a missing CA fails. -/
def SignCertificate (st : PKIState) (input : SignCertificateInput) :
    PKIState × Except APIError Certificate :=
  match st.cas.find? (fun ca => ca.id == input.caID) with
  | none => (st, .error (.notFound ("CA " ++ input.caID)))
  | some ca =>
    let leaf : Certificate :=
      { serialNumber := st.nextSerial
        caID := ca.id
        status := .active
        revocationReason := 0
        cert :=
          { subjectCN := input.certRequest.subjectCN
            issuerCN := ca.certificate.cert.subjectCN
            pubKey := input.certRequest.pubKey
            sigKey := ca.keyID
            clientAuthAllowed := true } }
    ({ st with signedCerts := st.signedCerts ++ [leaf],
               nextSerial := st.nextSerial + 1 }, .ok leaf)

/-- Tail of Enroll after the chain check (src/unnamed/part_002 lines
317-347): sign the CSR against the aps CA, then attach identity-slot
version 0 to the local device variable and persist it. The Go code reaches
this point with device = nil on first contact (the CreateDevice result on
line 308 is discarded), so the slot assignment on line 327 dereferences a
nil pointer; the embedding returns nilPointerDereference at exactly that
point, after the signature has been produced and recorded. -/
def enrollSignAndUpdate (st : PKIState) (device : Option Device) (dms : DMS)
    (csr : CertificateRequest) (aps : String) :
    PKIState × Except APIError X509Cert :=
  match h : SignCertificate st { caID := aps, certRequest := csr, signVerbatim := true } with
  | (st2, .error e) => (st2, .error e)
  | (st2, .ok signedCert) =>
    match device with
    | none => (st2, .error .nilPointerDereference)
    | some d =>
      let d2 : Device :=
        { d with
          identitySlot := some
            { dmsManaged := false
              status := .active
              activeVersion := 0
              allowExpiredRenewal := dms.allowExpiredRenewal
              preventiveReenrollmentDelta := dms.preventiveReenrollmentDelta
              criticalDelta := dms.criticalReenrollmentDelta
              secretType := .x509
              secrets := [(0, signedCert)] }
          status := .active }
      (devicesUpdate st2 d2, .ok signedCert.cert)

/-- Body of Enroll once the DMS record has been resolved
(src/unnamed/part_002 lines 261-347): chain check against the upstream CA
(cloud-managed DMS) or the local RA CA, device lookup, duplicate-slot
check, device creation on first contact, signing and slot attachment. -/
def enrollWithDMS (upstreamCA : X509Cert) (st : PKIState) (dms : DMS)
    (cert : X509Cert) (csr : CertificateRequest) (aps : String) :
    PKIState × Except APIError X509Cert :=
  let certCheck : Except APIError Unit :=
    if dms.cloudDMS then
      match verifyIssuedByCA cert upstreamCA with
      | .error _ => .error (.sentinel 403 "this device must be enrolled through the DMS Manager service")
      | .ok _ => .ok ()
    else
      match st.cas.find? (fun ca => ca.id == CALocalRA) with
      | none => .error (.notFound ("CA " ++ CALocalRA))
      | some ca =>
        match verifyIssuedByCA cert ca.certificate.cert with
        | .error e => .error (.sentinel 401 ("validation error: " ++ e))
        | .ok _ => .ok ()
  match certCheck with
  | .error e => (st, .error e)
  | .ok _ =>
    let deviceID := csr.subjectCN
    let device : Option Device :=
      if devicesExists st deviceID then devicesSelect st deviceID else none
    match device with
    | some d =>
      if d.identitySlot.isSome then
        (st, .error (.sentinel 403 "slot default already enrolled"))
      else
        enrollSignAndUpdate st (some d) dms csr aps
    | none =>
      let created := CreateDevice st
        { id := deviceID, aliasName := dms.id, tags := dms.deviceProvisionTags,
          metadata := dms.deviceProvisionMetadata, dmsID := dms.id }
      enrollSignAndUpdate created.1 none dms csr aps

/-- Embedding of deviceManagerServiceImpl.Enroll (src/unnamed/part_002
lines 231-348). The authentication context carries the optional client
certificate and the optional x-dms-id header value. -/
def Enroll (upstreamCA : X509Cert) (st : PKIState) (authMode : ESTAuthMode)
    (ctxClientCert : Option X509Cert) (ctxDMSID : Option String)
    (csr : CertificateRequest) (aps : String) :
    PKIState × Except APIError X509Cert :=
  if authMode ≠ .mutualTLS then
    (st, .error (.sentinel 401 "only supports mTLS authentication"))
  else
    match ctxClientCert with
    | none => (st, .error (.sentinel 500 "corrupted ctx while authenticating. Could not extract certificate"))
    | some cert =>
      let dmsID :=
        match ctxDMSID with
        | some i => i
        | none => cert.subjectCN
      match st.dmss.find? (fun d => d.id == dmsID) with
      | none => (st, .error (.notFound ("DMS " ++ dmsID)))
      | some dms => enrollWithDMS upstreamCA st dms cert csr aps

/-! ## Concrete enrollment scenarios -/

/-- Upstream CA certificate: self-signed over key 1. -/
def upstreamCACert : X509Cert :=
  { subjectCN := "UPSTREAM-CA", issuerCN := "UPSTREAM-CA", pubKey := 1,
    sigKey := 1, clientAuthAllowed := true }

/-- Client certificate self-signed by an untrusted key 77: it chains
neither to the upstream CA nor to the local RA CA. -/
def rogueClientCert : X509Cert :=
  { subjectCN := "dms1", issuerCN := "dms1", pubKey := 77, sigKey := 77,
    clientAuthAllowed := true }

/-- Client certificate genuinely issued by the upstream CA. -/
def upstreamIssuedCert : X509Cert :=
  { subjectCN := "dms1", issuerCN := "UPSTREAM-CA", pubKey := 5, sigKey := 1,
    clientAuthAllowed := true }

/-- Approved cloud-managed DMS with an empty authorized-CA list. -/
def dmsCloud : DMS :=
  { id := "dms1", status := .approved, cloudDMS := true, authorizedCAs := [],
    deviceProvisionTags := [], deviceProvisionMetadata := [],
    allowExpiredRenewal := false, preventiveReenrollmentDelta := 0,
    criticalReenrollmentDelta := 0 }

/-- An issuing CA available for signing, backed by engine key 10. -/
def caOne : CACertificate :=
  { id := "ca1", keyID := 10,
    certificate :=
      { serialNumber := 0, caID := "ca1", status := .active, revocationReason := 0,
        cert := { subjectCN := "CA-ONE", issuerCN := "CA-ONE", pubKey := 10,
                  sigKey := 10, clientAuthAllowed := false } } }

/-- A device already registered but without an identity slot. -/
def devBlank : Device :=
  { id := "dev1", aliasName := "dms1", tags := [], status := .noIdentity,
    metadata := [], identitySlot := none, dmsOwnerID := "dms1" }

/-- CSR presented by the enrolling device. -/
def csrDev : CertificateRequest := { subjectCN := "dev1", pubKey := 55 }

/-- State with the device already registered (identity slot empty). -/
def stWithDevice : PKIState :=
  { devices := [devBlank], dmss := [dmsCloud], cas := [caOne],
    signedCerts := [], nextSerial := 100 }

/-- State on first contact: no device registered yet. -/
def stFresh : PKIState :=
  { devices := [], dmss := [dmsCloud], cas := [caOne],
    signedCerts := [], nextSerial := 100 }

/-- Leaf certificate that SignCertificate produces for csrDev under caOne
at serial 100. -/
def leafDev : X509Cert :=
  { subjectCN := "dev1", issuerCN := "CA-ONE", pubKey := 55, sigKey := 10,
    clientAuthAllowed := true }

/-- C10: verifyIssuedByCA is independent of its rootCA parameter, and
consequently the whole Enroll flow is independent of the configured
upstream CA certificate. -/
theorem verifyIssuedByCA_independent_of_rootCA :
    (∀ (c r1 r2 : X509Cert), verifyIssuedByCA c r1 = verifyIssuedByCA c r2) ∧
    (∀ (u1 u2 : X509Cert) (st : PKIState) (authMode : ESTAuthMode)
        (ctxCert : Option X509Cert) (ctxDMSID : Option String)
        (csr : CertificateRequest) (aps : String),
        Enroll u1 st authMode ctxCert ctxDMSID csr aps =
          Enroll u2 st authMode ctxCert ctxDMSID csr aps) :=
  ⟨fun _ _ _ => rfl, fun _ _ _ _ _ _ _ _ => rfl⟩

/-- C1: the chain check of Enroll is broken. Against a cloud-managed DMS,
a self-signed client certificate that chains to no CA at all passes the
check and enrollment succeeds, while a certificate genuinely issued by
the configured upstream CA is rejected with FORBIDDEN: the pool built by
verifyIssuedByCA contains only the certificate under test, so exactly the
self-signed certificates pass. -/
theorem enroll_chain_check_inverted :
    chainsToCA rogueClientCert upstreamCACert = false ∧
    (Enroll upstreamCACert stWithDevice .mutualTLS (some rogueClientCert)
      none csrDev "ca1").2 = .ok leafDev ∧
    chainsToCA upstreamIssuedCert upstreamCACert = true ∧
    (Enroll upstreamCACert stWithDevice .mutualTLS (some upstreamIssuedCert)
      none csrDev "ca1").2 =
      .error (.sentinel 403 "this device must be enrolled through the DMS Manager service") :=
  ⟨rfl, rfl, rfl, rfl⟩

/-- C3: on first contact (no device with the CSR common name) Enroll
inserts a fresh device, signs the certificate, and then dereferences the
nil device pointer: the call returns no certificate, the stored device
keeps status NO_IDENTITY with no identity slot, and a further Enroll for
the same common name then succeeds instead of failing with FORBIDDEN. -/
theorem enroll_first_contact_nil_dereference :
    (Enroll upstreamCACert stFresh .mutualTLS (some rogueClientCert)
      none csrDev "ca1").2 = .error .nilPointerDereference ∧
    (Enroll upstreamCACert stFresh .mutualTLS (some rogueClientCert)
      none csrDev "ca1").1.devices = [devBlank] ∧
    (Enroll upstreamCACert stFresh .mutualTLS (some rogueClientCert)
      none csrDev "ca1").1.signedCerts.length = 1 ∧
    (Enroll upstreamCACert
      (Enroll upstreamCACert stFresh .mutualTLS (some rogueClientCert)
        none csrDev "ca1").1
      .mutualTLS (some rogueClientCert) none csrDev "ca1").2 = .ok leafDev :=
  ⟨rfl, rfl, rfl, rfl⟩

/-- C2 counterexample: with aps = "ca1" not in the authorized-CA list of
the resolved DMS, Enroll succeeds and a certificate for ca1 is signed and
recorded, instead of failing with FORBIDDEN with no certificate signed. -/
theorem enroll_unauthorized_aps_signs :
    dmsCloud.authorizedCAs.contains "ca1" = false ∧
    (Enroll upstreamCACert stWithDevice .mutualTLS (some rogueClientCert)
      none csrDev "ca1").2 = .ok leafDev ∧
    (Enroll upstreamCACert stWithDevice .mutualTLS (some rogueClientCert)
      none csrDev "ca1").1.signedCerts =
      [{ serialNumber := 100, caID := "ca1", status := .active,
         revocationReason := 0, cert := leafDev }] :=
  ⟨rfl, rfl, rfl⟩

/-- Replace the authorized-CA list of a DMS record. -/
def setAuthorizedCAs (d : DMS) (l : List String) : DMS :=
  { d with authorizedCAs := l }

/-- Resolving a DMS by id commutes with rewriting every authorized-CA
list. -/
theorem find?_map_setAuthorizedCAs (store : List DMS) (l : List String) (i : String) :
    (store.map (fun d => setAuthorizedCAs d l)).find? (fun d => d.id == i) =
      (store.find? (fun d => d.id == i)).map (fun d => setAuthorizedCAs d l) := by
  have hp : ((fun d : DMS => d.id == i) ∘ (fun d => setAuthorizedCAs d l)) =
      (fun d : DMS => d.id == i) := by
    funext d
    rfl
  rw [List.find?_map, hp]

/-- SignCertificate never reads nor writes the DMS store. -/
theorem signCertificate_swap_dmss (dv : List Device) (dl dl2 : List DMS)
    (cs : List CACertificate) (sc : List Certificate) (ns : Nat)
    (inp : SignCertificateInput) :
    SignCertificate ⟨dv, dl2, cs, sc, ns⟩ inp =
      ({ (SignCertificate ⟨dv, dl, cs, sc, ns⟩ inp).1 with dmss := dl2 },
        (SignCertificate ⟨dv, dl, cs, sc, ns⟩ inp).2) := by
  unfold SignCertificate
  rcases h : cs.find? (fun ca => ca.id == inp.caID) with _ | ca <;> simp [h]

/-- The signing tail of Enroll never reads nor writes the DMS store. -/
theorem enrollSignAndUpdate_swap_dmss (dv : List Device) (dl dl2 : List DMS)
    (cs : List CACertificate) (sc : List Certificate) (ns : Nat)
    (device : Option Device) (dms : DMS) (csr : CertificateRequest) (aps : String) :
    enrollSignAndUpdate ⟨dv, dl2, cs, sc, ns⟩ device dms csr aps =
      ({ (enrollSignAndUpdate ⟨dv, dl, cs, sc, ns⟩ device dms csr aps).1 with dmss := dl2 },
        (enrollSignAndUpdate ⟨dv, dl, cs, sc, ns⟩ device dms csr aps).2) := by
  unfold enrollSignAndUpdate
  rw [signCertificate_swap_dmss dv dl dl2 cs sc ns]
  rcases h : SignCertificate ⟨dv, dl, cs, sc, ns⟩
      { caID := aps, certRequest := csr, signVerbatim := true } with ⟨st2, res⟩
  rcases res with e | c
  · rfl
  · rcases device with _ | d
    · rfl
    · simp [devicesUpdate]

/-- The signing tail of Enroll ignores the authorized-CA list of the
resolved DMS. -/
theorem enrollSignAndUpdate_strip (st : PKIState) (device : Option Device)
    (dms : DMS) (l : List String) (csr : CertificateRequest) (aps : String) :
    enrollSignAndUpdate st device (setAuthorizedCAs dms l) csr aps =
      enrollSignAndUpdate st device dms csr aps := rfl

/-- The resolved-DMS body of Enroll ignores the authorized-CA list. -/
theorem enrollWithDMS_strip (u : X509Cert) (st : PKIState) (dms : DMS)
    (l : List String) (cert : X509Cert) (csr : CertificateRequest) (aps : String) :
    enrollWithDMS u st (setAuthorizedCAs dms l) cert csr aps =
      enrollWithDMS u st dms cert csr aps := rfl

/-- The resolved-DMS body of Enroll never reads nor writes the DMS
store. -/
theorem enrollWithDMS_swap_dmss (u : X509Cert) (dv : List Device) (dl dl2 : List DMS)
    (cs : List CACertificate) (sc : List Certificate) (ns : Nat) (dms : DMS)
    (cert : X509Cert) (csr : CertificateRequest) (aps : String) :
    enrollWithDMS u ⟨dv, dl2, cs, sc, ns⟩ dms cert csr aps =
      ({ (enrollWithDMS u ⟨dv, dl, cs, sc, ns⟩ dms cert csr aps).1 with dmss := dl2 },
        (enrollWithDMS u ⟨dv, dl, cs, sc, ns⟩ dms cert csr aps).2) := by
  unfold enrollWithDMS
  dsimp only
  split
  · rfl
  · simp only [devicesExists, devicesSelect]
    split
    · split
      · rfl
      · exact enrollSignAndUpdate_swap_dmss dv dl dl2 cs sc ns _ dms csr aps
    · unfold CreateDevice devicesInsert
      dsimp only
      exact enrollSignAndUpdate_swap_dmss _ dl dl2 cs sc ns none dms csr aps

/-- C2 amended: Enroll performs no authorized-CA check at all. Rewriting
the authorized-CA list of every stored DMS changes neither the outcome of
any Enroll call nor any repository effect: the device store, the recorded
signed certificates, the CA store and the serial counter all evolve
identically, so a certificate is signed for any aps the CA store can
serve, regardless of the authorized-CA list of the resolved DMS. -/
theorem enroll_ignores_authorized_cas (u : X509Cert) (dv : List Device)
    (dl : List DMS) (cs : List CACertificate) (sc : List Certificate) (ns : Nat)
    (authMode : ESTAuthMode) (ctxCert : Option X509Cert) (ctxDMSID : Option String)
    (csr : CertificateRequest) (aps : String) (l : List String) :
    Enroll u ⟨dv, dl.map (fun d => setAuthorizedCAs d l), cs, sc, ns⟩
        authMode ctxCert ctxDMSID csr aps =
      ({ (Enroll u ⟨dv, dl, cs, sc, ns⟩ authMode ctxCert ctxDMSID csr aps).1
          with dmss := dl.map (fun d => setAuthorizedCAs d l) },
        (Enroll u ⟨dv, dl, cs, sc, ns⟩ authMode ctxCert ctxDMSID csr aps).2) := by
  unfold Enroll
  rcases authMode with _ | _
  · rcases ctxCert with _ | cert
    · rfl
    · rcases ctxDMSID with _ | i
      · simp only [ne_eq, not_true_eq_false, if_false, reduceCtorEq]
        rw [find?_map_setAuthorizedCAs]
        rcases h : dl.find? (fun d => d.id == cert.subjectCN) with _ | dms
        · rw [h]
          rfl
        · rw [h]
          dsimp only [Option.map]
          rw [enrollWithDMS_strip]
          exact enrollWithDMS_swap_dmss u dv dl _ cs sc ns dms cert csr aps
      · simp only [ne_eq, not_true_eq_false, if_false, reduceCtorEq]
        rw [find?_map_setAuthorizedCAs]
        rcases h : dl.find? (fun d => d.id == i) with _ | dms
        · rw [h]
          rfl
        · rw [h]
          dsimp only [Option.map]
          rw [enrollWithDMS_strip]
          exact enrollWithDMS_swap_dmss u dv dl _ cs sc ns dms cert csr aps
  · rfl

/-! ## CRL generation (src/pkg/services/crl.go, crlServiceImpl.GetCRL) -/

/-- Nanoseconds in one hour: the Go time.Hour duration. -/
def nanosPerHour : Nat := 3600000000000

/-- Go time.Time UnixMilli for a non-negative instant t in nanoseconds
since the epoch. -/
def unixMilli (t : Nat) : Nat := t / 1000000

/-- Entry of an x509 RevocationList as filled by GetCRL. -/
structure RevocationListEntry where
  serialNumber : Nat
  revocationTime : Nat
  reasonCode : Nat
  deriving DecidableEq, Repr

/-- The x509 RevocationList built by GetCRL; sigKey is the crypto-engine
key that produced the CRL signature (x509.CreateRevocationList signs with
the CA signer). -/
structure RevocationList where
  revokedCertificateEntries : List RevocationListEntry
  number : Nat
  thisUpdate : Nat
  nextUpdate : Nat
  sigKey : Nat
  deriving DecidableEq, Repr

/-- Embedding of the repository query GetCertificatesByCaAndStatus: all
stored certificates of the CA with the given status, in repository
order (the exhaustive paginated iteration visits every one). -/
def GetCertificatesByCaAndStatus (certs : List Certificate) (caID : String)
    (status : CertificateStatus) : List Certificate :=
  certs.filter (fun c => c.caID == caID && c.status == status)

/-- Embedding of crlServiceImpl.GetCRL (src/pkg/services/crl.go lines
47-103). Real time is modeled by the single parameter now (nanoseconds
since the epoch) standing for the generation instant; the Go code calls
time.Now() at each site within the one request. The input validator
rejects an empty CAID (the required tag); the query then collects every
REVOKED certificate of the CA, and the revocation list is built with
thisUpdate = now, nextUpdate = now + 48h, number = milliseconds since the
epoch, signed with the crypto-engine key of the CA. -/
def GetCRL (cas : List CACertificate) (certs : List Certificate) (caID : String)
    (now : Nat) : Except APIError RevocationList :=
  if caID = "" then .error (.sentinel 400 "struct validation error")
  else
    let certList : List RevocationListEntry :=
      (GetCertificatesByCaAndStatus certs caID .revoked).map
        (fun cert =>
          { serialNumber := cert.serialNumber, revocationTime := now,
            reasonCode := cert.revocationReason })
    match cas.find? (fun ca => ca.id == caID) with
    | none => .error (.notFound ("CA " ++ caID))
    | some ca =>
      .ok { revokedCertificateEntries := certList,
            number := unixMilli now,
            thisUpdate := now,
            nextUpdate := now + 48 * nanosPerHour,
            sigKey := ca.keyID }

/-- Signature check of a revocation list against a public key: succeeds
exactly when the signing key is the key pair of that public key. -/
def verifyCRLSignature (crl : RevocationList) (pubKey : Nat) : Bool :=
  crl.sigKey == pubKey

/-- C4: for a stored CA, GetCRL returns a revocation list whose entries
are exactly the serial numbers of the certificates stored for that CA
with status REVOKED, whose thisUpdate is the generation time, whose
nextUpdate is the generation time plus 48 hours, whose number is the
milliseconds since the epoch, and whose signature verifies against the
public key of the CA certificate. -/
theorem getCRL_correct (cas : List CACertificate) (certs : List Certificate)
    (caID : String) (now : Nat) (ca : CACertificate)
    (hca : cas.find? (fun c => c.id == caID) = some ca)
    (hid : caID ≠ "")
    (hkey : ca.certificate.cert.pubKey = ca.keyID) :
    ∃ crl, GetCRL cas certs caID now = .ok crl ∧
      crl.revokedCertificateEntries.map (fun e => e.serialNumber) =
        (certs.filter (fun c => c.caID == caID && c.status == .revoked)).map
          (fun c => c.serialNumber) ∧
      (∀ s : Nat,
        s ∈ crl.revokedCertificateEntries.map (fun e => e.serialNumber) ↔
          ∃ c ∈ certs, c.caID = caID ∧ c.status = .revoked ∧ c.serialNumber = s) ∧
      crl.thisUpdate = now ∧
      crl.nextUpdate = now + 48 * nanosPerHour ∧
      crl.number = unixMilli now ∧
      verifyCRLSignature crl ca.certificate.cert.pubKey = true := by
  unfold GetCRL
  rw [if_neg hid, hca]
  refine ⟨_, rfl, ?_, ?_, rfl, rfl, rfl, ?_⟩
  · simp [GetCertificatesByCaAndStatus, List.map_map]
  · intro s
    simp only [GetCertificatesByCaAndStatus, List.map_map, List.mem_map,
      List.mem_filter, Function.comp, Bool.and_eq_true, beq_iff_eq]
    constructor
    · rintro ⟨c, ⟨hc, hca2, hst⟩, hs⟩
      exact ⟨c, hc, hca2, hst, hs⟩
    · rintro ⟨c, hc, hca2, hst, hs⟩
      exact ⟨c, ⟨hc, hca2, hst⟩, hs⟩
  · simp [verifyCRLSignature, hkey]

/-- Certificate body reused by the CRL example records. -/
def dummyLeafCert : X509Cert :=
  { subjectCN := "leaf", issuerCN := "CA-ONE", pubKey := 0, sigKey := 10,
    clientAuthAllowed := true }

/-- Example certificate repository: serials 1 and 3 revoked under ca1,
serial 2 active under ca1, serial 4 revoked under another CA. -/
def crlCerts : List Certificate :=
  [ { serialNumber := 1, caID := "ca1", status := .revoked, revocationReason := 1,
      cert := dummyLeafCert },
    { serialNumber := 2, caID := "ca1", status := .active, revocationReason := 0,
      cert := dummyLeafCert },
    { serialNumber := 3, caID := "ca1", status := .revoked, revocationReason := 0,
      cert := dummyLeafCert },
    { serialNumber := 4, caID := "ca2", status := .revoked, revocationReason := 0,
      cert := dummyLeafCert } ]

/-- Witness for C4 at a concrete repository and instant. -/
theorem getCRL_correct_witness :
    ∃ crl, GetCRL [caOne] crlCerts "ca1" 1700000000000000000 = .ok crl ∧
      crl.revokedCertificateEntries.map (fun e => e.serialNumber) =
        (crlCerts.filter (fun c => c.caID == "ca1" && c.status == .revoked)).map
          (fun c => c.serialNumber) ∧
      (∀ s : Nat,
        s ∈ crl.revokedCertificateEntries.map (fun e => e.serialNumber) ↔
          ∃ c ∈ crlCerts, c.caID = "ca1" ∧ c.status = .revoked ∧ c.serialNumber = s) ∧
      crl.thisUpdate = 1700000000000000000 ∧
      crl.nextUpdate = 1700000000000000000 + 48 * nanosPerHour ∧
      crl.number = unixMilli 1700000000000000000 ∧
      verifyCRLSignature crl caOne.certificate.cert.pubKey = true :=
  getCRL_correct [caOne] crlCerts "ca1" 1700000000000000000 caOne rfl (by decide) rfl

end Lamassu
